import Mathlib

/-!
Shallow embedding of `src/unifi_client.py` (a UniFi controller API client).

Network I/O (`requests`), the JavaScript beautifier (`jsbeautifier`), the
regex engine (`re`) and the YAML parser (`yaml`) are external libraries; each
operation is parameterised over them (a `Transport` function standing for the
HTTP session, a `beautify`, a `re_match_groups` and a `yaml_load` function).
Everything the repository's own code does — URL construction, argument
validation, status-code checks, error messages, the enrichment lookups and
`uri_to_parts` (whose `urllib.parse.urlsplit` semantics are embedded
explicitly, following CPython 3.11) — is translated directly from the source.

Python exceptions become the `PyErr` type; a function that can raise returns
`Except PyErr α`.  Each client method additionally returns the list of HTTP
requests it issued, so that "no network request is issued" is a statement
about that list.
-/

namespace UnifiClient

/-- Decidable equality for `Except`, so results of fallible operations can
be evaluated on concrete inputs. -/
instance {ε α : Type} [DecidableEq ε] [DecidableEq α] : DecidableEq (Except ε α) :=
  fun x y =>
    match x, y with
    | Except.ok a, Except.ok b =>
      if h : a = b then isTrue (by rw [h]) else isFalse (by intro hh; cases hh; exact h rfl)
    | Except.error a, Except.error b =>
      if h : a = b then isTrue (by rw [h]) else isFalse (by intro hh; cases hh; exact h rfl)
    | Except.ok _, Except.error _ => isFalse (by intro hh; cases hh)
    | Except.error _, Except.ok _ => isFalse (by intro hh; cases hh)

/-- Python exception outcomes relevant to the client:
`UnifiAPIClientException` (the repository's only exception class, used for
authentication, endpoint and extraction failures), `ValueError` (argument
validation, bad port), `AttributeError` (e.g. calling `.groups()` on the
`None` returned by a failed `re.match`), `KeyError` (dict subscript miss)
and `IndexError` (list subscript miss). -/
inductive PyErr where
  | unifiAPIClientException (msg : String)
  | valueError (msg : String)
  | attributeError (msg : String)
  | keyError (key : String)
  | indexError
deriving DecidableEq

/-- A JSON-serialisable parameter value appearing in request bodies. -/
inductive PVal where
  | s (v : String)
  | i (v : Int)
  | ls (v : List String)
deriving DecidableEq

/-- An HTTP request as issued through the `requests` session: method, URL,
headers, optional JSON body (the parameter dict, prior to `json.dumps`), and
the `verify` flag (always `False` in the source). -/
structure HttpRequest where
  method : String
  url : String
  headers : List (String × String)
  body : Option (List (String × PVal))
  verify : Bool
deriving DecidableEq

/-- The mocked HTTP layer: maps a request to a status code and the parsed
JSON body (`response.status_code`, `response.json()`), with the body living
in an arbitrary type `J`. -/
def Transport (J : Type) : Type := HttpRequest → Nat × J

/-- The module-level global state: `unifi_controller_url`, set at import time
from the `UNIFI_URI` environment variable (line 447) and read by every
method of `UnifiAPIClient`. -/
structure Globals where
  unifi_controller_url : String
deriving DecidableEq

/-- The per-instance state of `UnifiAPIClient`: `self._controller_url`,
assigned in `__init__` (line 60). -/
structure Client where
  controller_url : String
deriving DecidableEq

/-- Embedding of `UnifiAPIClient.__str__` (line 388). -/
def Client.str (c : Client) : String :=
  "UnifiAPIClient to " ++ c.controller_url

/-- A single-quote character, kept out of string literals. -/
def sq : String := String.singleton (Char.ofNat 39)

/-- Python `str` of a list of strings, as interpolated into the f-string
error messages (e.g. `['5minutes', 'hourly', 'daily']`). -/
def pyStrList (xs : List String) : String :=
  "[" ++ String.intercalate ", " (xs.map (fun s => sq ++ s ++ sq)) ++ "]"

/-- Embedding of `UnifiAPIClient.all_stat_attributes` (lines 23-24). -/
def all_stat_attributes : List String :=
  ["bytes", "wan-tx_bytes", "wan-rx_bytes", "wlan_bytes", "num_sta",
   "lan-num_sta", "wlan-num_sta", "time", "rx_bytes", "tx_bytes"]

/-- Embedding of `UnifiAPIClient.dpi_app_categories` (lines 26-50): the hardcoded
fallback table of DPI category names. -/
def dpi_app_categories : List (Nat × String) :=
  [(0, "Instant messaging"), (1, "P2P"), (3, "File Transfer"),
   (4, "Streaming Media"), (5, "Mail and Collaboration"), (6, "Voice over IP"),
   (7, "Database"), (8, "Games"), (9, "Network Management"),
   (10, "Remote Access Terminals"), (11, "Bypass Proxies and Tunnels"),
   (12, "Stock Market"), (13, "Web"), (14, "Security Update"), (15, "Web IM"),
   (17, "Business"), (18, "Network Protocols"), (19, "Network Protocols"),
   (20, "Network Protocols"), (23, "Private Protocol"), (24, "Social Network"),
   (255, "Unknown")]

/-- Embedding of `UnifiAPIClient.__init__` (lines 53-77).  Stores `controller_url` on the
instance, then performs the login POST.  NOTE (faithful to the source):
`url_login` is built from the module global `unifi_controller_url`
(line 64), not from the constructor argument. -/
def clientInit {J : Type} (g : Globals)
    (controller_url authentication_username authentication_password : String)
    (transport : Transport J) : Except PyErr Client × List HttpRequest :=
  let c : Client := { controller_url := controller_url }
  let url_login := g.unifi_controller_url ++ "/api/login"
  let req : HttpRequest :=
    { method := "POST", url := url_login,
      headers := [("content-type", "application/json")],
      body := some [("username", PVal.s authentication_username),
                    ("password", PVal.s authentication_password)],
      verify := false }
  let resp := transport req
  if resp.1 ≠ 200 then
    (Except.error (PyErr.unifiAPIClientException
      (c.str ++ " Login failed. HTTP request to " ++ url_login ++
        " returned status code " ++ toString resp.1 ++ ". Expected 200.")), [req])
  else
    (Except.ok c, [req])

/-- Embedding of `get_sites` (lines 79-95). -/
def get_sites {J : Type} (g : Globals) (c : Client) (transport : Transport J) :
    Except PyErr J × List HttpRequest :=
  let url_sites := g.unifi_controller_url ++ "/api/self/sites"
  let req : HttpRequest :=
    { method := "GET", url := url_sites,
      headers := [("content-type", "application/json")],
      body := none, verify := false }
  let resp := transport req
  if resp.1 ≠ 200 then
    (Except.error (PyErr.unifiAPIClientException
      (c.str ++ " request to sites endpoint " ++ url_sites ++
        " returned status code " ++ toString resp.1 ++ ". Expected 200")), [req])
  else
    (Except.ok resp.2, [req])

/-- Embedding of `get_devices_for_site` (lines 98-114). -/
def get_devices_for_site {J : Type} (g : Globals) (c : Client) (site : String)
    (transport : Transport J) : Except PyErr J × List HttpRequest :=
  let url_devices := g.unifi_controller_url ++ "/api/s/" ++ site ++ "/stat/device"
  let req : HttpRequest :=
    { method := "GET", url := url_devices,
      headers := [("content-type", "application/json")],
      body := none, verify := false }
  let resp := transport req
  if resp.1 ≠ 200 then
    (Except.error (PyErr.unifiAPIClientException
      (c.str ++ " request to site devicess endpoint " ++ url_devices ++
        " returned status code " ++ toString resp.1 ++ ". Expected 200")), [req])
  else
    (Except.ok resp.2, [req])

/-- Embedding of `get_active_clients` (lines 209-225). -/
def get_active_clients {J : Type} (g : Globals) (c : Client) (site : String)
    (transport : Transport J) : Except PyErr J × List HttpRequest :=
  let url_active_clients := g.unifi_controller_url ++ "/api/s/" ++ site ++ "/stat/sta"
  let req : HttpRequest :=
    { method := "GET", url := url_active_clients,
      headers := [("content-type", "application/json")],
      body := none, verify := false }
  let resp := transport req
  if resp.1 ≠ 200 then
    (Except.error (PyErr.unifiAPIClientException
      (c.str ++ " request to site active clients endpoint " ++ url_active_clients ++
        " returned status code " ++ toString resp.1 ++ ". Expected 200")), [req])
  else
    (Except.ok resp.2, [req])

/-- Embedding of `get_known_clients` (lines 228-244). -/
def get_known_clients {J : Type} (g : Globals) (c : Client) (site : String)
    (transport : Transport J) : Except PyErr J × List HttpRequest :=
  let url_known_clients := g.unifi_controller_url ++ "/api/s/" ++ site ++ "/rest/user"
  let req : HttpRequest :=
    { method := "GET", url := url_known_clients,
      headers := [("content-type", "application/json")],
      body := none, verify := false }
  let resp := transport req
  if resp.1 ≠ 200 then
    (Except.error (PyErr.unifiAPIClientException
      (c.str ++ " request to site known clients endpoint " ++ url_known_clients ++
        " returned status code " ++ toString resp.1 ++ ". Expected 200")), [req])
  else
    (Except.ok resp.2, [req])

/-- Embedding of `get_ddns_information` (lines 265-281). -/
def get_ddns_information {J : Type} (g : Globals) (c : Client) (site : String)
    (transport : Transport J) : Except PyErr J × List HttpRequest :=
  let url_ddns_info := g.unifi_controller_url ++ "/api/s/" ++ site ++ "/stat/dynamicdns"
  let req : HttpRequest :=
    { method := "GET", url := url_ddns_info,
      headers := [("content-type", "application/json")],
      body := none, verify := false }
  let resp := transport req
  if resp.1 ≠ 200 then
    (Except.error (PyErr.unifiAPIClientException
      (c.str ++ " request to site ddns info endpoint " ++ url_ddns_info ++
        " returned status code " ++ toString resp.1 ++ ". Expected 200")), [req])
  else
    (Except.ok resp.2, [req])

/-- Embedding of `get_site_dpi_by_app` (lines 284-307). -/
def get_site_dpi_by_app {J : Type} (g : Globals) (c : Client) (site : String)
    (filter_category_list : Option (List String))
    (transport : Transport J) : Except PyErr J × List HttpRequest :=
  let url_site_dpi := g.unifi_controller_url ++ "/api/s/" ++ site ++ "/stat/sitedpi"
  let parameters : List (String × PVal) := [("type", PVal.s "by_app")]
  let parameters := match filter_category_list with
    | some cats => if cats.length > 0 then parameters ++ [("cats", PVal.ls cats)] else parameters
    | none => parameters
  let req : HttpRequest :=
    { method := "POST", url := url_site_dpi,
      headers := [("content-type", "application/json")],
      body := some parameters, verify := false }
  let resp := transport req
  if resp.1 ≠ 200 then
    (Except.error (PyErr.unifiAPIClientException
      (c.str ++ " request to site dpi by app info endpoint " ++ url_site_dpi ++
        " returned status code " ++ toString resp.1 ++ ". Expected 200")), [req])
  else
    (Except.ok resp.2, [req])

/-- Embedding of `get_site_dpi_by_category` (lines 310-331). -/
def get_site_dpi_by_category {J : Type} (g : Globals) (c : Client) (site : String)
    (transport : Transport J) : Except PyErr J × List HttpRequest :=
  let url_site_dpi := g.unifi_controller_url ++ "/api/s/" ++ site ++ "/stat/sitedpi"
  let parameters : List (String × PVal) := [("type", PVal.s "by_cat")]
  let req : HttpRequest :=
    { method := "POST", url := url_site_dpi,
      headers := [("content-type", "application/json")],
      body := some parameters, verify := false }
  let resp := transport req
  if resp.1 ≠ 200 then
    (Except.error (PyErr.unifiAPIClientException
      (c.str ++ " request to site dpi by category info endpoint " ++ url_site_dpi ++
        " returned status code " ++ toString resp.1 ++ ". Expected 200")), [req])
  else
    (Except.ok resp.2, [req])

/-- Embedding of `get_dpi_by_app` (lines 333-359). -/
def get_dpi_by_app {J : Type} (g : Globals) (c : Client) (site : String)
    (filter_mac_list filter_category_list : Option (List String))
    (transport : Transport J) : Except PyErr J × List HttpRequest :=
  let url_dpi := g.unifi_controller_url ++ "/api/s/" ++ site ++ "/stat/stadpi"
  let parameters : List (String × PVal) := [("type", PVal.s "by_app")]
  let parameters := match filter_mac_list with
    | some macs => if macs.length > 0 then parameters ++ [("macs", PVal.ls macs)] else parameters
    | none => parameters
  let parameters := match filter_category_list with
    | some cats => if cats.length > 0 then parameters ++ [("cats", PVal.ls cats)] else parameters
    | none => parameters
  let req : HttpRequest :=
    { method := "POST", url := url_dpi,
      headers := [("content-type", "application/json")],
      body := some parameters, verify := false }
  let resp := transport req
  if resp.1 ≠ 200 then
    (Except.error (PyErr.unifiAPIClientException
      (c.str ++ " request to site dpi by app info endpoint " ++ url_dpi ++
        " returned status code " ++ toString resp.1 ++ ". Expected 200")), [req])
  else
    (Except.ok resp.2, [req])

/-- Embedding of `get_dpi_by_category` (lines 361-384). -/
def get_dpi_by_category {J : Type} (g : Globals) (c : Client) (site : String)
    (filter_mac_list : Option (List String))
    (transport : Transport J) : Except PyErr J × List HttpRequest :=
  let url_dpi := g.unifi_controller_url ++ "/api/s/" ++ site ++ "/stat/stadpi"
  let parameters : List (String × PVal) := [("type", PVal.s "by_cat")]
  let parameters := match filter_mac_list with
    | some macs => if macs.length > 0 then parameters ++ [("macs", PVal.ls macs)] else parameters
    | none => parameters
  let req : HttpRequest :=
    { method := "POST", url := url_dpi,
      headers := [("content-type", "application/json")],
      body := some parameters, verify := false }
  let resp := transport req
  if resp.1 ≠ 200 then
    (Except.error (PyErr.unifiAPIClientException
      (c.str ++ " request to site dpi by category info endpoint " ++ url_dpi ++
        " returned status code " ++ toString resp.1 ++ ". Expected 200")), [req])
  else
    (Except.ok resp.2, [req])

/-- Embedding of `DOES_NOT_WORK_get_spectrum_scan` (lines 246-263); the
method follows the same endpoint contract (the endpoint itself happens to
return 404 on real controllers, per the source TODO). -/
def DOES_NOT_WORK_get_spectrum_scan {J : Type} (g : Globals) (c : Client) (site : String)
    (transport : Transport J) : Except PyErr J × List HttpRequest :=
  let url_spectrum_scan := g.unifi_controller_url ++ "/api/s/" ++ site ++ "/stat/spectrumscan"
  let req : HttpRequest :=
    { method := "GET", url := url_spectrum_scan,
      headers := [("content-type", "application/json")],
      body := none, verify := false }
  let resp := transport req
  if resp.1 ≠ 200 then
    (Except.error (PyErr.unifiAPIClientException
      (c.str ++ " request to site spectrum scan endpoint " ++ url_spectrum_scan ++
        " returned status code " ++ toString resp.1 ++ ". Expected 200")), [req])
  else
    (Except.ok resp.2, [req])

/-- Embedding of `get_stats_for_site` (lines 119-162): validates `interval`,
`element_type` and each stat attribute before building the request; only
after all validation passes is the POST issued. -/
def get_stats_for_site {J : Type} (g : Globals) (c : Client)
    (site interval element_type : String) (stat_attributes : List String)
    (start_epoch_timestamp_ms end_epoch_timestamp_ms : Option Int)
    (filter_mac_list : Option (List String))
    (transport : Transport J) : Except PyErr J × List HttpRequest :=
  let supported_intervals := ["5minutes", "hourly", "daily"]
  let supported_element_types := ["site", "user", "ap"]
  if !(supported_intervals.contains interval) then
    (Except.error (PyErr.valueError
      (c.str ++ " invalid interval value " ++ interval ++ ". Must be one of " ++
        pyStrList supported_intervals)), [])
  else if !(supported_element_types.contains element_type) then
    (Except.error (PyErr.valueError
      (c.str ++ " invalid element type value " ++ element_type ++ ". Must be one of " ++
        pyStrList supported_element_types)), [])
  else
    match stat_attributes.find? (fun a => !(all_stat_attributes.contains a)) with
    | some bad =>
      (Except.error (PyErr.valueError
        (c.str ++ " unsupported stat attribute type value " ++ bad ++
          ". Must be among types " ++ pyStrList all_stat_attributes)), [])
    | none =>
      let url_stat := g.unifi_controller_url ++ "/api/s/" ++ site ++ "/stat/report/" ++
        interval ++ "." ++ element_type
      let stat_request_parameters : List (String × PVal) :=
        [("attrs", PVal.ls stat_attributes)]
      let stat_request_parameters := match start_epoch_timestamp_ms with
        | some s => stat_request_parameters ++ [("start", PVal.i s)]
        | none => stat_request_parameters
      let stat_request_parameters := match end_epoch_timestamp_ms with
        | some e => stat_request_parameters ++ [("end", PVal.i e)]
        | none => stat_request_parameters
      let stat_request_parameters := match filter_mac_list with
        | some macs =>
          if macs.length > 0 then stat_request_parameters ++ [("macs", PVal.ls macs)]
          else stat_request_parameters
        | none => stat_request_parameters
      let req : HttpRequest :=
        { method := "POST", url := url_stat,
          headers := [("content-type", "application/json")],
          body := some stat_request_parameters, verify := false }
      let resp := transport req
      if resp.1 ≠ 200 then
        (Except.error (PyErr.unifiAPIClientException
          (c.str ++ " request to site stat endpoint " ++ url_stat ++
            " returned status code " ++ toString resp.1 ++ ". Expected 200")), [req])
      else
        (Except.ok resp.2, [req])

/-- Embedding of `get_monthly_site_all_stats` (lines 194-197). -/
def get_monthly_site_all_stats {J : Type} (g : Globals) (c : Client) (site : String)
    (start_epoch_timestamp_ms end_epoch_timestamp_ms : Option Int)
    (transport : Transport J) : Except PyErr J × List HttpRequest :=
  get_stats_for_site g c site "monthly" "site" all_stat_attributes
    start_epoch_timestamp_ms end_epoch_timestamp_ms none transport

/-- Embedding of `get_monthly_ap_all_stats` (lines 199-202). -/
def get_monthly_ap_all_stats {J : Type} (g : Globals) (c : Client) (site : String)
    (start_epoch_timestamp_ms end_epoch_timestamp_ms : Option Int)
    (transport : Transport J) : Except PyErr J × List HttpRequest :=
  get_stats_for_site g c site "monthly" "ap" all_stat_attributes
    start_epoch_timestamp_ms end_epoch_timestamp_ms none transport

/-- Embedding of `get_monthly_user_all_stats` (lines 204-207). -/
def get_monthly_user_all_stats {J : Type} (g : Globals) (c : Client) (site : String)
    (start_epoch_timestamp_ms end_epoch_timestamp_ms : Option Int)
    (transport : Transport J) : Except PyErr J × List HttpRequest :=
  get_stats_for_site g c site "monthly" "user" all_stat_attributes
    start_epoch_timestamp_ms end_epoch_timestamp_ms none transport

/-- The regex pattern literal of line 421 (characters exactly as in the
Python string; `\x7b` and `\x7d` are the brace characters). -/
def dpi_regex_pattern : String :=
  ".*categories: (.*),.*            applications:(.*)\x7d\n    \\\x7d, \\\x7b\\\x7d\\],\n    2\\:"

/-- Number of capture groups of a regex pattern: unescaped opening
parentheses (the pattern of line 421 uses no non-capturing groups). -/
def countCaptureGroups : List Char → Nat
  | [] => 0
  | '\\' :: [] => 0
  | '\\' :: _ :: rest => countCaptureGroups rest
  | '(' :: rest => 1 + countCaptureGroups rest
  | _ :: rest => countCaptureGroups rest

/-- Embedding of `get_category_and_application_map` (lines 409-431).
`requests_get` stands for the unauthenticated `requests.get` (status code
and response text), `beautify` for `jsbeautifier.beautify`, and
`re_match_groups` for `re.match(dpi_regex_pattern, ·, re.DOTALL)` followed
by `.groups()`: `none` when `re.match` returns `None` (in which case the
source's `.groups()` call raises `AttributeError`), otherwise the list of
captured groups.  `yaml_load` stands for `yaml.load` with the full loader.
Both outputs are parsed from `mg[0]` (lines 428-429), exactly as in the
source. -/
def get_category_and_application_map {Y : Type} (g : Globals) (c : Client)
    (angular_build : String)
    (requests_get : String → Nat × String)
    (beautify : String → String)
    (re_match_groups : String → Option (List String))
    (yaml_load : String → Y) : Except PyErr (Y × Y) :=
  let dynamic_dpi_js := g.unifi_controller_url ++ "/manage/angular/" ++
    angular_build ++ "/js/dynamic.dpi.js"
  let resp := requests_get dynamic_dpi_js
  if resp.1 ≠ 200 then
    Except.error (PyErr.unifiAPIClientException
      (c.str ++ " request to get dynamic dpi js lib " ++ dynamic_dpi_js ++
        " returned status code " ++ toString resp.1 ++ ". Expected 200"))
  else
    let beautified_dpi_js := beautify resp.2
    match re_match_groups beautified_dpi_js with
    | none =>
      Except.error (PyErr.attributeError "NoneType object has no attribute groups")
    | some mg =>
      if mg.length ≠ 2 then
        Except.error (PyErr.unifiAPIClientException
          (c.str ++ " could not parse dynamic dpi js lib " ++ dynamic_dpi_js ++
            ". Regex expected two match groups got " ++ toString mg.length))
      else
        match mg.get? 0 with
        | none => Except.error PyErr.indexError
        | some mg0 => Except.ok (yaml_load mg0, yaml_load mg0)

/-- A parsed YAML record (the per-id dicts of the extracted maps), as an
association list of string keys to string values. -/
abbrev Entry := List (String × String)

/-- An extracted id-to-record mapping (integer keys, as produced by
`yaml.load` on the extracted fragment). -/
abbrev YMap := List (Nat × Entry)

/-- Python dict subscript `e[k]` on a record: `KeyError` when absent. -/
def pyDictGetStr (e : Entry) (k : String) : Except PyErr String :=
  match e.lookup k with
  | some v => Except.ok v
  | none => Except.error (PyErr.keyError k)

/-- Python dict subscript `m[k]` on an id map: `KeyError` when absent. -/
def pyDictGetNat (m : YMap) (k : Nat) : Except PyErr Entry :=
  match m.lookup k with
  | some v => Except.ok v
  | none => Except.error (PyErr.keyError (toString k))

/-- Python `m.get(k, dflt)`: total, never raises. -/
def pyDictGetDefault (m : YMap) (k : Nat) (dflt : Entry) : Entry :=
  match m.lookup k with
  | some v => v
  | none => dflt

/-- Line 461 of the enrichment loop:
`stat["x_cat"] = cat_map[stat["cat"]]["name"]`. -/
def resolve_x_cat (cat_map : YMap) (cat : Nat) : Except PyErr String :=
  (pyDictGetNat cat_map cat).bind (fun e => pyDictGetStr e "name")

/-- Line 462 of the enrichment loop:
`stat["x_app"] = app_map.get(stat["app"], {"name": "__unlisted__"})["name"]`. -/
def resolve_x_app (app_map : YMap) (app : Nat) : Except PyErr String :=
  pyDictGetStr (pyDictGetDefault app_map app [("name", "__unlisted__")]) "name"

/-! Embedding of the parts of `urllib.parse` used by `uri_to_parts`
(CPython 3.11.6 semantics: `urlsplit` with its scheme/netloc split, the
`Invalid IPv6 URL` bracket check and the bracketed-host validation of
`_check_bracketed_host` (which draws on `ipaddress.ip_address`), and the
`username`, `password`, `hostname`, `port` properties, plus `unquote`).
One modelling restriction remains and is carried as an explicit hypothesis
of the C10 theorem: the `_checknetloc` NFKC check — which CPython skips
entirely for empty or all-ASCII netlocs — and the Unicode lowercasing of
`hostname` are exact here only for all-ASCII netlocs, so the theorem about
`uri_to_parts` assumes an all-ASCII netloc. -/

/-- WHATWG C0-control-or-space characters, stripped from the front of the
URL by `urlsplit` (it deliberately does not strip the tail). -/
def isC0OrSpace (c : Char) : Bool := c.toNat ≤ 32

/-- The characters `urlsplit` removes from anywhere in the URL
(tab, CR, LF). -/
def isRemovedUrlChar (c : Char) : Bool :=
  c = Char.ofNat 9 || c = Char.ofNat 13 || c = Char.ofNat 10

/-- Characters allowed in a URL scheme after the first. -/
def isSchemeChar (c : Char) : Bool :=
  c.isAlphanum || c = '+' || c = '-' || c = '.'

/-- Split at the first colon: `some (before, after)` or `none` when there is
no colon. -/
def splitAtFirstColon : List Char → Option (List Char × List Char)
  | [] => none
  | c :: rest =>
    if c = ':' then some ([], rest)
    else
      match splitAtFirstColon rest with
      | some (a, b) => some (c :: a, b)
      | none => none

/-- Python `s.partition(sep)` restricted to the found case: split at the
first occurrence of `sep`. -/
def lpartitionChar (sep : Char) : List Char → Option (List Char × List Char)
  | [] => none
  | c :: rest =>
    if c = sep then some ([], rest)
    else
      match lpartitionChar sep rest with
      | some (a, b) => some (c :: a, b)
      | none => none

/-- Python `s.rpartition(sep)` restricted to the found case: split at the
last occurrence of `sep`. -/
def rpartitionChar (sep : Char) : List Char → Option (List Char × List Char)
  | [] => none
  | c :: rest =>
    match rpartitionChar sep rest with
    | some (a, b) => some (c :: a, b)
    | none => if c = sep then some ([], rest) else none

/-- The scheme detection of `urlsplit`: the part before the first colon is a
scheme when it is nonempty, starts with an ASCII letter and consists of
scheme characters; it is returned lowercased, otherwise the scheme is empty
and the URL is left intact. -/
def splitScheme (cs : List Char) : String × List Char :=
  match splitAtFirstColon cs with
  | some (pre, post) =>
    match pre with
    | [] => ("", cs)
    | c0 :: _ =>
      if c0.isAlpha && pre.all isSchemeChar then
        (String.mk (pre.map Char.toLower), post)
      else ("", cs)
  | none => ("", cs)

/-- The netloc runs up to the first `/`, `?` or `#`. -/
def takeNetloc : List Char → List Char
  | [] => []
  | c :: rest =>
    if c = '/' || c = '?' || c = '#' then [] else c :: takeNetloc rest

/-- Decimal digits to a natural number. -/
def digitsToNat (l : List Char) : Nat :=
  l.foldl (fun acc c => acc * 10 + (c.toNat - 48)) 0

/-- Python `s.split(sep)`: splits on every occurrence, keeping empty parts
(so the empty string yields one empty part). -/
def splitOnChar (sep : Char) : List Char → List (List Char)
  | [] => [[]]
  | c :: rest =>
    match splitOnChar sep rest with
    | h :: t => if c = sep then [] :: (h :: t) else (c :: h) :: t
    | [] => [[]]

/-- Validity of one decimal octet per `ipaddress.IPv4Address._parse_octet`:
nonempty, ASCII digits only, at most 3 characters, no leading zero (except
the octet `0` itself), value at most 255. -/
def isValidIPv4Octet (s : List Char) : Bool :=
  !s.isEmpty && s.all Char.isDigit && s.length ≤ 3 &&
  (s == ['0'] || !(s.head? == some '0')) &&
  digitsToNat s ≤ 255

/-- Validity of an IPv4 address text per
`ipaddress.IPv4Address._ip_int_from_string`: exactly four valid octets. -/
def isValidIPv4 (s : List Char) : Bool :=
  !s.isEmpty &&
  (let octets := splitOnChar '.' s
   octets.length == 4 && octets.all isValidIPv4Octet)

/-- An ASCII hexadecimal digit (`ipaddress._HEX_DIGITS`). -/
def isHexDigitChar (c : Char) : Bool :=
  c.isDigit || (65 ≤ c.toNat && c.toNat ≤ 70) || (97 ≤ c.toNat && c.toNat ≤ 102)

/-- Validity of one IPv6 hextet per `IPv6Address._parse_hextet`: one to four
hex digits. -/
def isValidHextet (s : List Char) : Bool :=
  !s.isEmpty && s.length ≤ 4 && s.all isHexDigitChar

/-- The colon-part analysis of `IPv6Address._ip_int_from_string` after the
IPv4-tail replacement: at most one empty interior part (the `::` skip); a
leading or trailing colon only as part of `::`; the skip must cover at
least one hextet; every part actually parsed is a valid hextet. -/
def ipv6PartsOk (parts : List (List Char)) : Bool :=
  let n := parts.length
  let mids := (parts.drop 1).dropLast
  let emptyMids := mids.filter List.isEmpty
  if 2 ≤ emptyMids.length then false
  else if emptyMids.length == 1 then
    let skip_index := 1 + mids.findIdx List.isEmpty
    let headEmpty := (parts.headD ['x']).isEmpty
    let lastEmpty := (parts.getLastD ['x']).isEmpty
    let hi := if headEmpty then skip_index - 1 else skip_index
    let lo := if lastEmpty then n - skip_index - 2 else n - skip_index - 1
    if headEmpty && hi != 0 then false
    else if lastEmpty && lo != 0 then false
    else if 8 ≤ hi + lo then false
    else (parts.take hi).all isValidHextet && (parts.drop (n - lo)).all isValidHextet
  else
    n == 8 && !(parts.headD ['x']).isEmpty && !(parts.getLastD ['x']).isEmpty &&
    parts.all isValidHextet

/-- Validity of an IPv6 address text without a scope id, per
`IPv6Address._ip_int_from_string`: nonempty, at least three colon-parts, an
optional IPv4-style last part replaced by two hextets, at most nine parts,
and the `::`-skip rules of `ipv6PartsOk`. -/
def isValidIPv6NoScope (s : List Char) : Bool :=
  !s.isEmpty &&
  (let parts0 := splitOnChar ':' s
   3 ≤ parts0.length &&
   (let lastPart := parts0.getLastD []
    let lastHasDot := lastPart.contains '.'
    (!lastHasDot || isValidIPv4 lastPart) &&
    (let parts := if lastHasDot then parts0.dropLast ++ [['0'], ['0']] else parts0
     parts.length ≤ 9 && ipv6PartsOk parts)))

/-- Validity of an IPv6 address text per `IPv6Address.__init__`: an optional
scope id after the first `%` (nonempty, itself free of `%`,
`_split_scope_id`), the rest a scopeless IPv6 address. -/
def isValidIPv6 (s : List Char) : Bool :=
  match lpartitionChar '%' s with
  | none => isValidIPv6NoScope s
  | some (addr, scope_id) =>
    !scope_id.isEmpty && !(scope_id.contains '%') && isValidIPv6NoScope addr

/-- The IPvFuture shape accepted by `_check_bracketed_host` (the regex
`v[a-fA-F0-9]+\..+` anchored at both ends): `v`, one or more hex digits,
a dot, then at least one character none of which is a newline. -/
def isValidIPvFuture (s : List Char) : Bool :=
  match s with
  | 'v' :: rest =>
    match lpartitionChar '.' rest with
    | some (hexpart, tail) =>
      !hexpart.isEmpty && hexpart.all isHexDigitChar &&
      !tail.isEmpty && tail.all (fun c => c != Char.ofNat 10)
    | none => false
  | _ => false

/-- Embedding of `urllib.parse._check_bracketed_host` (CPython 3.11.6): a
host starting with `v` must have the IPvFuture shape; otherwise
`ipaddress.ip_address` must accept it, an IPv4 address is rejected inside
brackets, and anything else raises the `does not appear to be` ValueError
(whose `repr` rendering is modelled as plain single-quoting). -/
def check_bracketed_host (hostname : List Char) : Except PyErr Unit :=
  match hostname with
  | 'v' :: _ =>
    if isValidIPvFuture hostname then Except.ok ()
    else Except.error (PyErr.valueError "IPvFuture address is invalid")
  | _ =>
    if isValidIPv4 hostname then
      Except.error (PyErr.valueError "An IPv4 address cannot be in brackets")
    else if isValidIPv6 hostname then Except.ok ()
    else
      Except.error (PyErr.valueError (sq ++ String.mk hostname ++ sq ++
        " does not appear to be an IPv4 or IPv6 address"))

/-- The result of `urllib.parse.urlsplit` restricted to the fields
`uri_to_parts` reads (everything it uses is derived from the scheme and the
netloc). -/
structure PySplitUrl where
  scheme : String
  netloc : List Char
deriving DecidableEq

/-- Embedding of `urllib.parse.urlsplit` (CPython 3.11.6): strip leading
C0-control/space characters, remove tab, CR and LF anywhere, split off the
scheme, take the netloc when the remainder starts with `//`, then run the
netloc checks that can raise: a `[` without `]` (or `]` without `[`) is the
`Invalid IPv6 URL` ValueError, and when both brackets occur the text between
the first `[` and the following `]` must pass `check_bracketed_host`.
CPython finally runs `_checknetloc`, which returns immediately whenever the
netloc is empty or all ASCII and otherwise applies an NFKC-normalization
check; that non-ASCII branch is not modelled, which is why the theorem
about `uri_to_parts` assumes an all-ASCII netloc. -/
def pyUrlsplit (url : String) : Except PyErr PySplitUrl :=
  let cs := (url.data.dropWhile isC0OrSpace).filter (fun c => !(isRemovedUrlChar c))
  let sr := splitScheme cs
  let netloc := match sr.2 with
    | '/' :: '/' :: tl => takeNetloc tl
    | _ => []
  if (netloc.contains '[' && !(netloc.contains ']')) ||
     (netloc.contains ']' && !(netloc.contains '[')) then
    Except.error (PyErr.valueError "Invalid IPv6 URL")
  else if netloc.contains '[' && netloc.contains ']' then
    let bracketed_host :=
      match lpartitionChar '[' netloc with
      | some (_, afterBracket) =>
        match lpartitionChar ']' afterBracket with
        | some (h, _) => h
        | none => afterBracket
      | none => netloc
    match check_bracketed_host bracketed_host with
    | Except.error e => Except.error e
    | Except.ok _ => Except.ok { scheme := sr.1, netloc := netloc }
  else
    Except.ok { scheme := sr.1, netloc := netloc }

/-- The `username`/`password` properties: the userinfo is the part of the
netloc before the last `@` (absent without `@`); the username is the
userinfo up to the first colon and the password is what follows it (absent
without a colon). -/
def splitUserinfo (netloc : List Char) : Option String × Option String :=
  match rpartitionChar '@' netloc with
  | none => (none, none)
  | some (userinfo, _) =>
    match lpartitionChar ':' userinfo with
    | none => (some (String.mk userinfo), none)
    | some (u, p) => (some (String.mk u), some (String.mk p))

/-- The `_hostinfo` split of the netloc: drop the userinfo, handle a
bracketed IPv6 host, and separate the raw port text (absent when empty). -/
def splitHostinfoRaw (netloc : List Char) : List Char × Option (List Char) :=
  let hostinfo := match rpartitionChar '@' netloc with
    | none => netloc
    | some (_, h) => h
  match lpartitionChar '[' hostinfo with
  | some (_, bracketed) =>
    match lpartitionChar ']' bracketed with
    | some (hostname, afterBracket) =>
      match lpartitionChar ':' afterBracket with
      | some (_, port) => (hostname, if port = [] then none else some port)
      | none => (hostname, none)
    | none => (bracketed, none)
  | none =>
    match lpartitionChar ':' hostinfo with
    | some (h, port) => (h, if port = [] then none else some port)
    | none => (hostinfo, none)

/-- The `hostname` property: lowercased, and `None` when empty.  The
lowercasing is ASCII (`Char.toLower`), which coincides with Python
`str.lower` on all-ASCII netlocs — the range the C10 theorem is stated
for. -/
def pyHostname (netloc : List Char) : Option String :=
  let h := (splitHostinfoRaw netloc).1
  if h = [] then none else some (String.mk (h.map Char.toLower))

/-- The `port` property (CPython 3.11): the raw port must be all ASCII
digits (`ValueError` otherwise, echoing the raw text) and at most 65535
(`ValueError` otherwise); absent raw port gives `None`. -/
def pyPort (netloc : List Char) : Except PyErr (Option Nat) :=
  match (splitHostinfoRaw netloc).2 with
  | none => Except.ok none
  | some p =>
    if p.all Char.isDigit && !p.isEmpty then
      let n := digitsToNat p
      if n ≤ 65535 then Except.ok (some n)
      else Except.error (PyErr.valueError "Port out of range 0-65535")
    else
      Except.error (PyErr.valueError
        ("Port could not be cast to integer value as " ++ sq ++ String.mk p ++ sq))

/-- Python `str(·)` applied to an optional string: `"None"` for `None`. -/
def pyStr : Option String → String
  | none => "None"
  | some s => s

/-- Value of one hex digit. -/
def hexDigitVal (c : Char) : Option Nat :=
  if c.isDigit then some (c.toNat - 48)
  else if 97 ≤ c.toNat && c.toNat ≤ 102 then some (c.toNat - 87)
  else if 65 ≤ c.toNat && c.toNat ≤ 70 then some (c.toNat - 55)
  else none

/-- Embedding of `urllib.parse.unquote` on character lists: each `%hh` hex pair becomes
the character of that code (faithful for ASCII escapes; multi-byte UTF-8
percent sequences are out of model), malformed escapes are left alone. -/
def unquoteChars : List Char → List Char
  | [] => []
  | '%' :: a :: b :: rest =>
    match hexDigitVal a, hexDigitVal b with
    | some ha, some hb => Char.ofNat (ha * 16 + hb) :: unquoteChars rest
    | _, _ => '%' :: unquoteChars (a :: b :: rest)
  | '%' :: rest => '%' :: unquoteChars rest
  | c :: rest => c :: unquoteChars rest

/-- Embedding of `urllib.parse.unquote`. -/
def unquote (s : String) : String := String.mk (unquoteChars s.data)

/-- Embedding of `UnifiAPIClient.uri_to_parts` (lines 391-399): split the URI, rebuild
the controller base URL from `scheme`, `str(hostname)` and the port (only
when present), return the username as-is and the percent-decoded
`str(password)`.  Both `urlsplit` itself (bracket checks) and reading the
`port` property can raise `ValueError`, which propagates. -/
def uri_to_parts (unifi_uri : String) :
    Except PyErr (String × Option String × String) :=
  match pyUrlsplit unifi_uri with
  | Except.error e => Except.error e
  | Except.ok split_unifi_uri =>
    match pyPort split_unifi_uri.netloc with
    | Except.error e => Except.error e
    | Except.ok port =>
      let controller_url := split_unifi_uri.scheme ++ "://" ++
        pyStr (pyHostname split_unifi_uri.netloc) ++
        (match port with
         | none => ""
         | some p => ":" ++ toString p)
      let username := (splitUserinfo split_unifi_uri.netloc).1
      let password := unquote (pyStr (splitUserinfo split_unifi_uri.netloc).2)
      Except.ok (controller_url, username, password)

/-! Infrastructure for the theorems. -/

/-- The string `t` occurs as a contiguous substring of `s`. -/
def ContainsSub (s t : String) : Prop := ∃ a b : String, s = a ++ (t ++ b)

/-- The validation predicate of `get_stats_for_site`: interval and element
type in their supported sets, every requested attribute in the allowed
vocabulary. -/
def ValidationOk (interval element_type : String) (stat_attributes : List String) : Prop :=
  interval ∈ ["5minutes", "hourly", "daily"] ∧
  element_type ∈ ["site", "user", "ap"] ∧
  ∀ a ∈ stat_attributes, a ∈ all_stat_attributes

/-- The result is an extraction-class failure (`UnifiAPIClientException`). -/
def isUnifiException {α : Type} : Except PyErr α → Bool
  | Except.error (PyErr.unifiAPIClientException _) => true
  | _ => false

/-- The uniform request contract of §4.1 for one operation closed over all
of its arguments but the transport: exactly one request is issued, at the
given URL; a 200 response returns the parsed body verbatim; any other
status yields a `UnifiAPIClientException` whose message carries the
endpoint URL, the observed status and the expected status 200. -/
def EndpointContract {J : Type} (op : Transport J → Except PyErr J × List HttpRequest)
    (url : String) : Prop :=
  ∀ t : Transport J, ∃ req msg,
    op t = (if (t req).1 ≠ 200 then
              (Except.error (PyErr.unifiAPIClientException msg), [req])
            else (Except.ok (t req).2, [req])) ∧
    req.url = url ∧
    (ContainsSub msg url ∧ ContainsSub msg (toString (t req).1) ∧
     ContainsSub msg "Expected 200")

/-- String append is associative. -/
theorem strAssoc (a b c : String) : a ++ b ++ c = a ++ (b ++ c) := by
  apply String.ext
  simp [String.data_append, List.append_assoc]

/-- Appending the empty string on the right is the identity. -/
theorem strAppendEmpty (s : String) : s ++ "" = s := by
  apply String.ext
  simp [String.data_append]

/-- Exhibiting a substring occurrence from an explicit decomposition. -/
theorem containsSub_of (a t b : String) : ContainsSub (a ++ t ++ b) t :=
  ⟨a, b, strAssoc a t b⟩

/-- Splitting the trailing literal of the endpoint error messages. -/
theorem expected200_split :
    (". Expected 200" : String) = ". " ++ ("Expected 200" ++ "") := by decide

/-- Splitting the trailing literal of the login error message. -/
theorem expected200_dot_split :
    (". Expected 200." : String) = ". " ++ ("Expected 200" ++ ".") := by decide

/-- Containment facts for the endpoint error messages, which all have the
shape prefix-URL-middle-status followed by the expected-200 literal. -/
theorem endpoint_msg_contains (p u m s : String) :
    ContainsSub (p ++ u ++ m ++ s ++ ". Expected 200") u ∧
    ContainsSub (p ++ u ++ m ++ s ++ ". Expected 200") s ∧
    ContainsSub (p ++ u ++ m ++ s ++ ". Expected 200") "Expected 200" := by
  refine ⟨⟨p, m ++ (s ++ ". Expected 200"), by simp [strAssoc]⟩,
          ⟨p ++ u ++ m, ". Expected 200", by simp [strAssoc]⟩,
          ⟨p ++ u ++ m ++ s ++ ". ", "", ?_⟩⟩
  rw [expected200_split]
  simp [strAssoc]

/-- Containment facts for the login error message (same shape, trailing
period). -/
theorem login_msg_contains (p u m s : String) :
    ContainsSub (p ++ u ++ m ++ s ++ ". Expected 200.") u ∧
    ContainsSub (p ++ u ++ m ++ s ++ ". Expected 200.") s ∧
    ContainsSub (p ++ u ++ m ++ s ++ ". Expected 200.") "Expected 200" := by
  refine ⟨⟨p, m ++ (s ++ ". Expected 200."), by simp [strAssoc]⟩,
          ⟨p ++ u ++ m, ". Expected 200.", by simp [strAssoc]⟩,
          ⟨p ++ u ++ m ++ s ++ ". ", ".", ?_⟩⟩
  rw [expected200_dot_split]
  simp [strAssoc]


/-- C1: whenever `get_category_and_application_map` succeeds, the two
returned mappings are equal, because both are parsed from the same extracted
fragment `mg[0]`. -/
theorem c1_category_and_application_maps_equal
    (Y : Type) (g : Globals) (c : Client) (angular_build : String)
    (requests_get : String → Nat × String) (beautify : String → String)
    (re_match_groups : String → Option (List String)) (yaml_load : String → Y)
    (a b : Y)
    (h : get_category_and_application_map g c angular_build requests_get
          beautify re_match_groups yaml_load = Except.ok (a, b)) :
    a = b := by
  simp only [get_category_and_application_map] at h
  split at h
  · exact Except.noConfusion h
  · split at h
    · exact Except.noConfusion h
    · split at h
      · exact Except.noConfusion h
      · split at h
        · exact Except.noConfusion h
        · simp only [Except.ok.injEq, Prod.mk.injEq] at h
          exact h.1.symm.trans h.2

/-- Witness for C1 at a concrete successful extraction: the match yields the
two fragments `catfrag` and `appfrag`, and the two returned maps coincide. -/
theorem c1_witness :
    get_category_and_application_map ⟨"https://ctl.example"⟩ ⟨"https://ctl.example"⟩
        "g9491db021" (fun _ => (200, "asset")) (fun s => s)
        (fun _ => some ["catfrag", "appfrag"]) (fun s => s)
      = Except.ok ("catfrag", "catfrag") ∧ "catfrag" = "catfrag" :=
  ⟨by decide,
   c1_category_and_application_maps_equal String ⟨"https://ctl.example"⟩
     ⟨"https://ctl.example"⟩ "g9491db021" (fun _ => (200, "asset")) (fun s => s)
     (fun _ => some ["catfrag", "appfrag"]) (fun s => s) "catfrag" "catfrag" (by decide)⟩

/-- C2: every monthly convenience wrapper fails locally with a `ValueError`
because `"monthly"` is not among the supported intervals, and issues no
HTTP request. -/
theorem c2_monthly_wrappers_raise_valueerror
    (J : Type) (g : Globals) (c : Client) (site : String)
    (start_ms end_ms : Option Int) (t : Transport J) :
    get_monthly_site_all_stats g c site start_ms end_ms t
      = (Except.error (PyErr.valueError (c.str ++ " invalid interval value " ++
          "monthly" ++ ". Must be one of " ++ pyStrList ["5minutes", "hourly", "daily"])), []) ∧
    get_monthly_ap_all_stats g c site start_ms end_ms t
      = (Except.error (PyErr.valueError (c.str ++ " invalid interval value " ++
          "monthly" ++ ". Must be one of " ++ pyStrList ["5minutes", "hourly", "daily"])), []) ∧
    get_monthly_user_all_stats g c site start_ms end_ms t
      = (Except.error (PyErr.valueError (c.str ++ " invalid interval value " ++
          "monthly" ++ ". Must be one of " ++ pyStrList ["5minutes", "hourly", "daily"])), []) :=
  ⟨rfl, rfl, rfl⟩

/-- Membership in a string list coincides with `List.contains`. -/
theorem contains_iff_mem (l : List String) (a : String) : l.contains a = true ↔ a ∈ l := by
  simp [List.contains, List.elem_iff]

/-- C3: `get_stats_for_site` validation passes exactly when the interval,
element type and every requested attribute are in their allowed sets; any
violation raises a `ValueError` with no HTTP request issued, and when
validation passes a single request is issued and no `ValueError` can be
raised. -/
theorem c3_stats_validation_iff
    (J : Type) (g : Globals) (c : Client) (site interval element_type : String)
    (stat_attributes : List String) (start_ms end_ms : Option Int)
    (macs : Option (List String)) (t : Transport J) :
    (¬ ValidationOk interval element_type stat_attributes →
      (get_stats_for_site g c site interval element_type stat_attributes
        start_ms end_ms macs t).2 = [] ∧
      ∃ msg, (get_stats_for_site g c site interval element_type stat_attributes
        start_ms end_ms macs t).1 = Except.error (PyErr.valueError msg)) ∧
    (ValidationOk interval element_type stat_attributes →
      (get_stats_for_site g c site interval element_type stat_attributes
        start_ms end_ms macs t).2.length = 1 ∧
      ∀ msg, (get_stats_for_site g c site interval element_type stat_attributes
        start_ms end_ms macs t).1 ≠ Except.error (PyErr.valueError msg)) := by
  cases h1 : (["5minutes", "hourly", "daily"] : List String).contains interval with
  | false =>
    have hno : ¬ ValidationOk interval element_type stat_attributes := by
      rintro ⟨hmem, -, -⟩
      rw [(contains_iff_mem _ _).mpr hmem] at h1
      exact Bool.noConfusion h1
    have heq : get_stats_for_site g c site interval element_type stat_attributes
        start_ms end_ms macs t
        = (Except.error (PyErr.valueError (c.str ++ " invalid interval value " ++
            interval ++ ". Must be one of " ++ pyStrList ["5minutes", "hourly", "daily"])), []) := by
      unfold get_stats_for_site
      rw [if_pos (by rw [h1]; decide)]
    exact ⟨fun _ => ⟨by rw [heq], ⟨_, by rw [heq]⟩⟩, fun hok2 => absurd hok2 hno⟩
  | true =>
    cases h2 : (["site", "user", "ap"] : List String).contains element_type with
    | false =>
      have hno : ¬ ValidationOk interval element_type stat_attributes := by
        rintro ⟨-, hmem, -⟩
        rw [(contains_iff_mem _ _).mpr hmem] at h2
        exact Bool.noConfusion h2
      have heq : get_stats_for_site g c site interval element_type stat_attributes
          start_ms end_ms macs t
          = (Except.error (PyErr.valueError (c.str ++ " invalid element type value " ++
              element_type ++ ". Must be one of " ++ pyStrList ["site", "user", "ap"])), []) := by
        unfold get_stats_for_site
        rw [if_neg (by rw [h1]; decide), if_pos (by rw [h2]; decide)]
      exact ⟨fun _ => ⟨by rw [heq], ⟨_, by rw [heq]⟩⟩, fun hok2 => absurd hok2 hno⟩
    | true =>
      rcases h3 : stat_attributes.find? (fun a => !(all_stat_attributes.contains a)) with _ | bad
      · -- validation passes
        have hok : ValidationOk interval element_type stat_attributes := by
          refine ⟨(contains_iff_mem _ _).mp h1, (contains_iff_mem _ _).mp h2, ?_⟩
          intro a ha
          have := List.find?_eq_none.mp h3 a ha
          simp only [Bool.not_eq_true, Bool.not_eq_false'] at this
          exact (contains_iff_mem _ _).mp this
        refine ⟨fun hno => absurd hok hno, fun _ => ⟨?_, ?_⟩⟩
        · unfold get_stats_for_site
          rw [if_neg (by rw [h1]; decide), if_neg (by rw [h2]; decide), h3]
          dsimp only
          repeat' split
          all_goals rfl
        · intro msg
          unfold get_stats_for_site
          rw [if_neg (by rw [h1]; decide), if_neg (by rw [h2]; decide), h3]
          dsimp only
          repeat' split
          all_goals simp
      · -- an attribute is outside the vocabulary
        have hbad := List.find?_some h3
        have hmem := List.mem_of_find?_eq_some h3
        simp only [Bool.not_eq_true'] at hbad
        have hno : ¬ ValidationOk interval element_type stat_attributes := by
          rintro ⟨-, -, hall⟩
          rw [(contains_iff_mem _ _).mpr (hall bad hmem)] at hbad
          exact Bool.noConfusion hbad
        have heq : get_stats_for_site g c site interval element_type stat_attributes
            start_ms end_ms macs t
            = (Except.error (PyErr.valueError (c.str ++
                " unsupported stat attribute type value " ++ bad ++
                ". Must be among types " ++ pyStrList all_stat_attributes)), []) := by
          unfold get_stats_for_site
          rw [if_neg (by rw [h1]; decide), if_neg (by rw [h2]; decide), h3]
        exact ⟨fun _ => ⟨by rw [heq], ⟨_, by rw [heq]⟩⟩, fun hok2 => absurd hok2 hno⟩

/-- Witness for C3: a valid call issues one request and raises no
`ValueError`; an invalid interval raises a `ValueError` with no request. -/
theorem c3_witness :
    (ValidationOk "hourly" "ap" ["bytes"] ∧
      (get_stats_for_site (J := Nat) ⟨"https://ctl.example"⟩
        ⟨"https://ctl.example"⟩ "default" "hourly" "ap" ["bytes"] none none none
        (fun _ => (200, 7))).2.length = 1) ∧
    (¬ ValidationOk "monthly" "site" [] ∧
      (get_stats_for_site (J := Nat) ⟨"https://ctl.example"⟩ ⟨"https://ctl.example"⟩
        "default" "monthly" "site" [] none none none (fun _ => (200, 7))).2 = []) := by
  constructor
  · have hok : ValidationOk "hourly" "ap" ["bytes"] := by
      refine ⟨by decide, by decide, ?_⟩
      intro a ha
      simp only [List.mem_singleton] at ha
      rw [ha]
      decide
    exact ⟨hok, ((c3_stats_validation_iff Nat ⟨"https://ctl.example"⟩
      ⟨"https://ctl.example"⟩ "default" "hourly" "ap" ["bytes"] none none none
      (fun _ => (200, 7))).2 hok).1⟩
  · have hno : ¬ ValidationOk "monthly" "site" [] := by
      rintro ⟨hmem, -, -⟩
      simp at hmem
    exact ⟨hno, ((c3_stats_validation_iff Nat ⟨"https://ctl.example"⟩
      ⟨"https://ctl.example"⟩ "default" "monthly" "site" [] none none none
      (fun _ => (200, 7))).1 hno).1⟩

/-- The structural pattern of line 421 carries exactly two capture groups,
so a successful `re.match` always yields exactly two fragments. -/
theorem dpi_pattern_two_groups : countCaptureGroups dpi_regex_pattern.data = 2 := by decide

/-- C4 counterexample: with a 200 fetch whose text the structural match does
not match at all (zero fragments found), `get_category_and_application_map`
raises `AttributeError` (from calling `.groups()` on `None`), not the
`UnifiAPIClientException` naming the asset URL and fragment count that the
claim describes. -/
theorem c4_counterexample :
    get_category_and_application_map (Y := Nat) ⟨"https://ctl.example"⟩
        ⟨"https://ctl.example"⟩ "g9491db021" (fun _ => (200, "no dpi data here"))
        (fun s => s) (fun _ => none) (fun _ => 0)
      = Except.error (PyErr.attributeError "NoneType object has no attribute groups") ∧
    isUnifiException (get_category_and_application_map (Y := Nat) ⟨"https://ctl.example"⟩
        ⟨"https://ctl.example"⟩ "g9491db021" (fun _ => (200, "no dpi data here"))
        (fun s => s) (fun _ => none) (fun _ => 0)) = false :=
  ⟨by decide, by decide⟩

/-- C4 (amended): after a 200 fetch, a failed structural match (zero
fragments found) raises an `AttributeError`, not an extraction-class
`UnifiAPIClientException`; and since the pattern carries exactly two capture
groups, a successful match always yields exactly two fragments, the
count-mismatch branch is unreachable, and the operation proceeds to
parsing. -/
theorem c4_zero_fragments_attribute_error
    (Y : Type) (g : Globals) (c : Client) (angular_build : String)
    (requests_get : String → Nat × String) (beautify : String → String)
    (re_match_groups : String → Option (List String)) (yaml_load : String → Y)
    (hre : ∀ s gs, re_match_groups s = some gs →
      gs.length = countCaptureGroups dpi_regex_pattern.data)
    (h200 : (requests_get (g.unifi_controller_url ++ "/manage/angular/" ++
      angular_build ++ "/js/dynamic.dpi.js")).1 = 200) :
    countCaptureGroups dpi_regex_pattern.data = 2 ∧
    (re_match_groups (beautify (requests_get (g.unifi_controller_url ++
        "/manage/angular/" ++ angular_build ++ "/js/dynamic.dpi.js")).2) = none →
      get_category_and_application_map g c angular_build requests_get beautify
        re_match_groups yaml_load
        = Except.error (PyErr.attributeError "NoneType object has no attribute groups")) ∧
    (∀ gs, re_match_groups (beautify (requests_get (g.unifi_controller_url ++
        "/manage/angular/" ++ angular_build ++ "/js/dynamic.dpi.js")).2) = some gs →
      ∃ g0, gs.get? 0 = some g0 ∧
        get_category_and_application_map g c angular_build requests_get beautify
          re_match_groups yaml_load = Except.ok (yaml_load g0, yaml_load g0)) := by
  refine ⟨dpi_pattern_two_groups, ?_, ?_⟩
  · intro hnone
    unfold get_category_and_application_map
    rw [if_neg (by simp [h200])]
    dsimp only
    rw [hnone]
  · intro gs hgs
    have hlen : gs.length = 2 := by
      rw [hre _ _ hgs]
      exact dpi_pattern_two_groups
    rcases gs with _ | ⟨g0, _ | ⟨g1, _ | ⟨g2, rest⟩⟩⟩ <;> simp at hlen
    refine ⟨g0, rfl, ?_⟩
    unfold get_category_and_application_map
    rw [if_neg (by simp [h200])]
    dsimp only
    rw [hgs]
    dsimp only
    rw [if_neg (by simp)]
    rfl

/-- Witness for C4 (amended) at a concrete successful match. -/
theorem c4_witness :
    get_category_and_application_map (Y := String) ⟨"https://ctl.example"⟩
        ⟨"https://ctl.example"⟩ "g9491db021" (fun _ => (200, "asset"))
        (fun s => s) (fun _ => some ["catfrag", "appfrag"]) (fun s => s)
      = Except.ok ("catfrag", "catfrag") := by
  have h := c4_zero_fragments_attribute_error String ⟨"https://ctl.example"⟩
    ⟨"https://ctl.example"⟩ "g9491db021" (fun _ => (200, "asset")) (fun s => s)
    (fun _ => some ["catfrag", "appfrag"]) (fun s => s)
    (by intro s gs hg; cases hg; decide) (by decide)
  obtain ⟨g0, hg0, hres⟩ := h.2.2 ["catfrag", "appfrag"] rfl
  have hg0' : g0 = "catfrag" := by
    simp only [List.get?] at hg0
    exact (Option.some.inj hg0).symm
  rw [hg0'] at hres
  exact hres

/-- C5 (code bug): every request URL is built from the module-level global
`unifi_controller_url`, not from the `_controller_url` stored on the client
at construction; two clients constructed with different controller URLs
issue identical requests, and even the login POST of construction goes to
the module-global URL regardless of the constructor argument. -/
theorem c5_request_urls_use_module_global
    (J : Type) (g : Globals) (c c2 : Client) (site u p : String) (t : Transport J) :
    (get_devices_for_site g c site t).2.map (fun r => r.url)
      = [g.unifi_controller_url ++ "/api/s/" ++ site ++ "/stat/device"] ∧
    (get_devices_for_site g c site t).2 = (get_devices_for_site g c2 site t).2 ∧
    (clientInit g c.controller_url u p t).2.map (fun r => r.url)
      = [g.unifi_controller_url ++ "/api/login"] ∧
    (clientInit g c.controller_url u p t).2 = (clientInit g c2.controller_url u p t).2 := by
  refine ⟨?_, ?_, ?_, ?_⟩
  · unfold get_devices_for_site
    dsimp only
    split <;> rfl
  · unfold get_devices_for_site
    dsimp only
    split <;> rfl
  · unfold clientInit
    dsimp only
    split <;> rfl
  · unfold clientInit
    dsimp only
    split <;> rfl

/-- C6: client construction issues exactly one request, a POST to the login
endpoint; status 200 yields the constructed client and any other status a
`UnifiAPIClientException` whose message carries the login endpoint, the
observed status and the expected code 200. -/
theorem c6_construction_login_contract
    (J : Type) (g : Globals) (controller_url u p : String) (t : Transport J) :
    ∃ req msg,
      clientInit g controller_url u p t
        = (if (t req).1 ≠ 200 then
             (Except.error (PyErr.unifiAPIClientException msg), [req])
           else (Except.ok ⟨controller_url⟩, [req])) ∧
      req.method = "POST" ∧ req.url = g.unifi_controller_url ++ "/api/login" ∧
      (ContainsSub msg (g.unifi_controller_url ++ "/api/login") ∧
       ContainsSub msg (toString (t req).1) ∧
       ContainsSub msg "Expected 200") := by
  unfold clientInit
  dsimp only
  exact ⟨_, _, rfl, rfl, rfl, login_msg_contains _ _ _ _⟩

/-- C7: every read/action operation issues exactly one request to its
endpoint; a non-200 status raises a `UnifiAPIClientException` carrying the
endpoint URL, the observed status and the expected status 200, while a 200
response returns the parsed JSON body verbatim. -/
theorem c7_read_operations_endpoint_contract
    (J : Type) (g : Globals) (c : Client) (site : String)
    (macs cats : Option (List String)) :
    EndpointContract (J := J) (get_sites g c)
      (g.unifi_controller_url ++ "/api/self/sites") ∧
    EndpointContract (J := J) (get_devices_for_site g c site)
      (g.unifi_controller_url ++ "/api/s/" ++ site ++ "/stat/device") ∧
    EndpointContract (J := J) (get_active_clients g c site)
      (g.unifi_controller_url ++ "/api/s/" ++ site ++ "/stat/sta") ∧
    EndpointContract (J := J) (get_known_clients g c site)
      (g.unifi_controller_url ++ "/api/s/" ++ site ++ "/rest/user") ∧
    EndpointContract (J := J) (get_ddns_information g c site)
      (g.unifi_controller_url ++ "/api/s/" ++ site ++ "/stat/dynamicdns") ∧
    EndpointContract (J := J) (fun t => get_site_dpi_by_app g c site cats t)
      (g.unifi_controller_url ++ "/api/s/" ++ site ++ "/stat/sitedpi") ∧
    EndpointContract (J := J) (get_site_dpi_by_category g c site)
      (g.unifi_controller_url ++ "/api/s/" ++ site ++ "/stat/sitedpi") ∧
    EndpointContract (J := J) (fun t => get_dpi_by_app g c site macs cats t)
      (g.unifi_controller_url ++ "/api/s/" ++ site ++ "/stat/stadpi") ∧
    EndpointContract (J := J) (fun t => get_dpi_by_category g c site macs t)
      (g.unifi_controller_url ++ "/api/s/" ++ site ++ "/stat/stadpi") ∧
    EndpointContract (J := J) (DOES_NOT_WORK_get_spectrum_scan g c site)
      (g.unifi_controller_url ++ "/api/s/" ++ site ++ "/stat/spectrumscan") := by
  refine ⟨?_, ?_, ?_, ?_, ?_, ?_, ?_, ?_, ?_, ?_⟩ <;> intro t
  · unfold get_sites
    dsimp only
    exact ⟨_, _, rfl, rfl, endpoint_msg_contains _ _ _ _⟩
  · unfold get_devices_for_site
    dsimp only
    exact ⟨_, _, rfl, rfl, endpoint_msg_contains _ _ _ _⟩
  · unfold get_active_clients
    dsimp only
    exact ⟨_, _, rfl, rfl, endpoint_msg_contains _ _ _ _⟩
  · unfold get_known_clients
    dsimp only
    exact ⟨_, _, rfl, rfl, endpoint_msg_contains _ _ _ _⟩
  · unfold get_ddns_information
    dsimp only
    exact ⟨_, _, rfl, rfl, endpoint_msg_contains _ _ _ _⟩
  · unfold get_site_dpi_by_app
    dsimp only
    exact ⟨_, _, rfl, rfl, endpoint_msg_contains _ _ _ _⟩
  · unfold get_site_dpi_by_category
    dsimp only
    exact ⟨_, _, rfl, rfl, endpoint_msg_contains _ _ _ _⟩
  · unfold get_dpi_by_app
    dsimp only
    exact ⟨_, _, rfl, rfl, endpoint_msg_contains _ _ _ _⟩
  · unfold get_dpi_by_category
    dsimp only
    exact ⟨_, _, rfl, rfl, endpoint_msg_contains _ _ _ _⟩
  · unfold DOES_NOT_WORK_get_spectrum_scan
    dsimp only
    exact ⟨_, _, rfl, rfl, endpoint_msg_contains _ _ _ _⟩

/-- C8: application-name resolution in the enrichment loop is total and
idempotent: an id present in the extracted map (whose record carries a
`name`) resolves to that record's name — the same string on every lookup,
the function being pure — and an id absent from the map always resolves to
the sentinel `__unlisted__`, never raising. -/
theorem c8_app_resolution_total
    (app_map : YMap) (app : Nat) (e : Entry) (n : String) :
    (app_map.lookup app = some e → e.lookup "name" = some n →
      resolve_x_app app_map app = Except.ok n) ∧
    (app_map.lookup app = none →
      resolve_x_app app_map app = Except.ok "__unlisted__") := by
  constructor
  · intro he hn
    unfold resolve_x_app pyDictGetDefault pyDictGetStr
    rw [he]
    dsimp only
    rw [hn]
  · intro he
    unfold resolve_x_app pyDictGetDefault pyDictGetStr
    rw [he]
    rfl

/-- Witness for C8: a known id resolves to its name, an unknown id to the
sentinel. -/
theorem c8_witness :
    ([(5, [("name", "YouTube")])] : YMap).lookup 5 = some [("name", "YouTube")] ∧
    resolve_x_app [(5, [("name", "YouTube")])] 5 = Except.ok "YouTube" ∧
    ([(5, [("name", "YouTube")])] : YMap).lookup 999999 = none ∧
    resolve_x_app [(5, [("name", "YouTube")])] 999999 = Except.ok "__unlisted__" :=
  ⟨by decide,
   (c8_app_resolution_total [(5, [("name", "YouTube")])] 5
     [("name", "YouTube")] "YouTube").1 (by decide) (by decide),
   by decide,
   (c8_app_resolution_total [(5, [("name", "YouTube")])] 999999
     [("name", "YouTube")] "YouTube").2 (by decide)⟩

/-- C9: category-name resolution in the enrichment loop is partial: a `cat`
id absent from the extracted category map raises `KeyError` — it never
yields a value, not even when the hardcoded `dpi_app_categories` table knows
the id — while the application lookup alone has the sentinel fallback. -/
theorem c9_cat_resolution_raises_keyerror
    (cat_map : YMap) (cat : Nat)
    (h : cat_map.lookup cat = none) :
    resolve_x_cat cat_map cat = Except.error (PyErr.keyError (toString cat)) ∧
    (∀ s, resolve_x_cat cat_map cat ≠ Except.ok s) ∧
    (∀ fallback, dpi_app_categories.lookup cat = some fallback →
      resolve_x_cat cat_map cat ≠ Except.ok fallback) ∧
    (∀ app_map : YMap, app_map.lookup cat = none →
      resolve_x_app app_map cat = Except.ok "__unlisted__") := by
  have heq : resolve_x_cat cat_map cat
      = Except.error (PyErr.keyError (toString cat)) := by
    unfold resolve_x_cat pyDictGetNat
    rw [h]
    rfl
  refine ⟨heq, ?_, ?_, ?_⟩
  · intro s
    rw [heq]
    simp
  · intro fallback _
    rw [heq]
    simp
  · intro app_map hm
    unfold resolve_x_app pyDictGetDefault pyDictGetStr
    rw [hm]
    rfl

/-- Witness for C9 at id 13 ("Web" in the hardcoded table) and an empty
extracted map. -/
theorem c9_witness :
    ([] : YMap).lookup 13 = none ∧
    dpi_app_categories.lookup 13 = some "Web" ∧
    resolve_x_cat [] 13 = Except.error (PyErr.keyError "13") ∧
    resolve_x_app [] 13 = Except.ok "__unlisted__" :=
  ⟨rfl, by decide,
   (c9_cat_resolution_raises_keyerror [] 13 rfl).1,
   (c9_cat_resolution_raises_keyerror [] 13 rfl).2.2.2 [] rfl⟩

/-- Faithfulness of the modelled urlsplit error paths: an unbalanced
bracket in the netloc makes `uri_to_parts` raise the `Invalid IPv6 URL`
ValueError, exactly as CPython 3.11.6 does on this input. -/
theorem uri_to_parts_unbalanced_bracket :
    uri_to_parts "https://[::1"
      = Except.error (PyErr.valueError "Invalid IPv6 URL") := by decide

/-- Faithfulness of the bracketed-host validation: a non-address bracketed
host raises inside urlsplit with the `ip_address` ValueError. -/
theorem uri_to_parts_invalid_bracketed_host :
    uri_to_parts "https://[abc]/"
      = Except.error (PyErr.valueError (sq ++ "abc" ++ sq ++
          " does not appear to be an IPv4 or IPv6 address")) := by decide

/-- A well-formed bracketed IPv6 host passes the urlsplit checks and round
trips through `uri_to_parts` (hostname lowered and unbracketed, port
appended, password the literal `None`). -/
theorem uri_to_parts_bracketed_ipv6 :
    uri_to_parts "https://[2001:db8::1]:8443/x"
      = Except.ok ("https://2001:db8::1:8443", none, "None") := by decide

end UnifiClient
